import Mathlib

/-!
A shallow embedding of `src/index.ts` from the `altshiftab/webpack_configuration`
package.

The TypeScript module reads the world through two effects: `globSync` enumerates
files of the current directory's source tree, and `cwd()` yields the working
directory.  In the embedding those effects become explicit arguments: a
filesystem is the list of its file paths, and a path is the list of its
`/`-separated segments; the working directory is passed as a string.  The
`node:path` helpers used by the module (`basename`, `dirname`, `join`,
`relative`, `resolve`) are embedded on segment lists for the call patterns the
module exercises (relative POSIX paths, an absolute working directory).
Third-party plugin instances carry no behaviour here: a plugin value records
the constructor the module invokes together with the options it passes.
-/

set_option synthInstance.maxHeartbeats 1000000
set_option maxHeartbeats 1000000

namespace WebpackConfig

/-- A POSIX path, represented as its list of `/`-separated segments. -/
abbrev Path := List String

/-- Render a segment list back to its string form, joining with `/`. -/
def pathToString (p : Path) : String := String.intercalate "/" p

/-- JavaScript `s.endsWith(post)`, computed on the character lists so that
it reduces inside the kernel. -/
def strEndsWith (s post : String) : Bool :=
  post.data.isSuffixOf s.data

/-- Strip `ext` from the end of `name` exactly the way `node:path`'s
`basename(path, ext)` does: the suffix is removed only when it is a proper
suffix (a name equal to the extension keeps it). -/
def stripSuffix (name ext : String) : String :=
  if name != ext && strEndsWith name ext then
    ⟨name.data.take (name.data.length - ext.data.length)⟩
  else name

/-- node `basename(path, ext)`: the final segment with `ext` stripped. -/
def basename (p : Path) (ext : String) : String :=
  stripSuffix (p.getLast?.getD "") ext

/-- node `dirname(path)`: all but the final segment, `"."` for a bare name. -/
def dirname (p : Path) : Path :=
  if p.length ≤ 1 then ["."] else p.dropLast

/-- node `join(dir, name)` for the shapes produced by `dirname`: appending a
final segment, where joining onto `"."` normalizes to the bare name. -/
def join (dir : Path) (name : String) : Path :=
  if dir = ["."] then [name] else dir ++ [name]

/-- node `relative(base, path)` for a single-segment `base`: paths below
`base` drop it, any other path is reached by first ascending out of `base`. -/
def relative (base : String) (p : Path) : Path :=
  match p with
  | [] => []
  | b :: rest => if b = base then rest else ".." :: p

/-- JavaScript `s.replace(/\//g, "_")`: every `/` becomes `_`. -/
def replaceSlashes (s : String) : String :=
  ⟨s.data.map fun c => if c = '/' then '_' else c⟩

/-- node `resolve(dir, p)` for the call pattern used by the module: `dir` is
the absolute working directory and `p` a relative path, so resolution is
plain concatenation. -/
def pathResolve (dir p : String) : String := dir ++ "/" ++ p

/-- The `scriptExtension` constant of the module. -/
def scriptExtension : String := ".ts"

/-- The `documentExtension` constant of the module. -/
def documentExtension : String := ".html"

/-- The glob pattern `src/scripts/*.ts`: a file directly inside
`src/scripts` whose name ends in the script extension. -/
def scriptGlobMatch : Path → Bool
  | [dir1, dir2, name] =>
    dir1 == "src" && dir2 == "scripts" && strEndsWith name scriptExtension
  | _ => false

/-- The glob pattern `src/**/*.html`: a file anywhere below `src` (the
globstar may match zero directories) whose name ends in the document
extension. -/
def documentGlobMatch : Path → Bool
  | [] => false
  | dir1 :: rest =>
    dir1 == "src" && !rest.isEmpty &&
      strEndsWith (rest.getLast?.getD "") documentExtension

/-- node `fs.globSync(pattern)` over an explicit filesystem: the files
matching the pattern, in filesystem enumeration order. -/
def globSync (pattern : Path → Bool) (fileSystem : List Path) : List Path :=
  fileSystem.filter pattern

/-- JavaScript property assignment `record[key] = value` on a string-keyed
object viewed as an insertion-ordered association list: an existing key keeps
its position and gets the new value, a fresh key is appended. -/
def recordSet (record : List (String × String)) (key value : String) :
    List (String × String) :=
  if record.any (fun kv => kv.1 == key) then
    record.map (fun kv => if kv.1 == key then (key, value) else kv)
  else
    record ++ [(key, value)]

/-- One element of the `htmlPages` array of `Parameters`. -/
structure HtmlPage where
  template : String
  filename : String
  chunks : List String
deriving DecidableEq

/-- The `Parameters` interface: `entry` and `aliases` are string-keyed
records, embedded as insertion-ordered association lists. -/
structure Parameters where
  entry : List (String × String)
  htmlPages : List HtmlPage
  aliases : List (String × String)
deriving DecidableEq

/-- The page object pushed onto `htmlPages` for one discovered document
(the loop body of the second `for` of `generateParameters`). -/
def pageOf (documentFilePath : Path) : HtmlPage :=
  let relativePath := relative "src" documentFilePath
  { template := pathToString documentFilePath
    filename := pathToString relativePath
    chunks := [replaceSlashes (pathToString
      (join (dirname relativePath) (basename documentFilePath documentExtension)))] }

/-- The `generateParameters` function.  The original reads the filesystem via
`globSync` and the working directory via the module-level `__dirname = cwd()`;
both are explicit arguments here. -/
def generateParameters (fileSystem : List Path) (cwd : String) : Parameters :=
  { entry := (globSync scriptGlobMatch fileSystem).foldl
      (fun entry scriptFilePath =>
        recordSet entry (basename scriptFilePath scriptExtension)
          ("./" ++ pathToString scriptFilePath))
      []
    htmlPages := (globSync documentGlobMatch fileSystem).map pageOf
    aliases := [
      ("lit", "lit"),
      ("litDecorators", "lit/decorators.js"),
      ("altshiftBox",
        pathResolve cwd "node_modules/@altshiftab/web_components/dist/box.js"),
      ("altshiftSwitch",
        pathResolve cwd "node_modules/@altshiftab/web_components/dist/switch.js")] }

/-- A plugin instance appearing in the `plugins` array: the constructor the
module invokes together with the options it passes.  `custom` stands for a
caller-supplied extra plugin instance, opaque to the configuration and
indexed so that distinct instances stay distinct. -/
inductive Plugin where
  | providePlugin (definitions : List (String × String))
  | limitChunkCountPlugin (maxChunks : Nat)
  | removeEmptyScriptsPlugin
  | miniCssExtractPlugin (filename : String)
  | htmlWebpackPlugin (options : HtmlPage)
  | subresourceIntegrityPlugin
  | custom (id : Nat)
deriving DecidableEq

/-- Whether a plugin value is an `HtmlWebpackPlugin` instance. -/
def Plugin.isHtmlWebpackPlugin : Plugin → Bool
  | .htmlWebpackPlugin _ => true
  | _ => false

/-- One entry of the `minimizer` array of `optimization`. -/
inductive Minimizer where
  | terserPlugin (compress : Bool)
  | cssMinimizerPlugin
  | imageMinimizerPlugin (test : String) (testIgnoreCase multipass removeViewBox : Bool)
deriving DecidableEq

/-- The `compilerOptions` object passed to `ts-loader`. -/
structure TsCompilerOptions where
  module : String
  moduleResolution : String
  target : String
  esModuleInterop : Bool
  strict : Bool
  outDir : String
  experimentalDecorators : Bool
  useDefineForClassFields : Bool
deriving DecidableEq

/-- One element of a rule's `use` array: either a bare loader string, a
loader object with no options, or the `ts-loader` object with its options. -/
inductive UseEntry where
  | str (loader : String)
  | obj (loader : String)
  | tsLoaderObj (loader : String) (compilerOptions : TsCompilerOptions)
      (onlyCompileBundledFiles : Bool)
deriving DecidableEq

/-- One element of the html-loader `options.sources.list` array: the
`"..."` defaults marker, or the custom `link`/`href` entry.  The custom
entry's `filter` closure is modelled by `iconLinkFilter` below. -/
inductive HtmlSourceItem where
  | defaults
  | linkEntry (tagName attributeName sourceType : String)
deriving DecidableEq

/-- The `filter` closure of the custom html-loader source entry: keep the
`link` element when its `rel` attribute (empty when absent) matches
`^(icon|mask-icon|apple-touch-icon)$`. -/
def iconLinkFilter (attributes : List (String × String)) : Bool :=
  let rel := ((attributes.find? fun a => a.1 == "rel").map Prod.snd).getD ""
  rel == "icon" || rel == "mask-icon" || rel == "apple-touch-icon"

namespace MiniCssExtractPlugin

/-- The loader module exposed as `MiniCssExtractPlugin.loader`. -/
def loader : String := "mini-css-extract-plugin/loader"

end MiniCssExtractPlugin

/-- One element of `module.rules`, keeping the fields the module sets: the
regular-expression source of `test` (with its ignore-case flag), the `use`
array, `type` with the `generator.filename`, a bare `loader` with the
html-loader `options.sources.list`, and `exclude`. -/
structure ModuleRule where
  test : String
  testIgnoreCase : Bool := false
  use : List UseEntry := []
  type : Option String := none
  generatorFilename : Option String := none
  loader : Option String := none
  sourcesList : Option (List HtmlSourceItem) := none
  exclude : Option String := none
deriving DecidableEq

/-- The `output` object of the configuration. -/
structure OutputConfig where
  filename : String
  path : String
  clean : Bool
  crossOriginLoading : String
deriving DecidableEq

/-- The `optimization` object of the configuration. -/
structure OptimizationConfig where
  minimize : Bool
  minimizer : List Minimizer
  splitChunksChunks : String
deriving DecidableEq

/-- The `resolve` object of the configuration.  Its `alias` field is named
`aliasMap` here because `alias` is a reserved word in Lean. -/
structure ResolveConfig where
  extensions : List String
  aliasMap : List (String × String)
deriving DecidableEq

/-- The webpack `Configuration` object, keeping the fields the module sets. -/
structure Configuration where
  mode : String
  entry : List (String × String)
  output : OutputConfig
  devtool : String
  optimization : OptimizationConfig
  resolve : ResolveConfig
  plugins : List Plugin
  moduleRules : List ModuleRule
deriving DecidableEq

/-- The `makeConfigWithParameters` function.  The module-level
`__dirname = cwd()` is the explicit `cwd` argument; the variadic
`...extraPlugins` rest parameter is the explicit list `extraPlugins`. -/
def makeConfigWithParameters (cwd : String) (parameters : Parameters)
    (extraPlugins : List Plugin) : Configuration :=
  { mode := "production"
    entry := parameters.entry
    output := {
      filename := "scripts/[name]-[contenthash].js"
      path := pathResolve cwd "dist"
      clean := true
      crossOriginLoading := "anonymous" }
    devtool := "source-map"
    optimization := {
      minimize := true
      minimizer := [
        .terserPlugin true,
        .cssMinimizerPlugin,
        .imageMinimizerPlugin "\\.svg$" true true false]
      splitChunksChunks := "all" }
    resolve := {
      extensions := [".ts", ".js"]
      aliasMap := parameters.aliases }
    plugins :=
      extraPlugins ++
      [.providePlugin [
          ("lit", "lit"),
          ("litDecorators", "lit/decorators.js"),
          ("altshiftBox", "@altshiftab/web_components/box"),
          ("altshiftSwitch", "@altshiftab/web_components/switch")],
        .limitChunkCountPlugin 1,
        .removeEmptyScriptsPlugin,
        .miniCssExtractPlugin "styles/[name]-[contenthash].css"] ++
      parameters.htmlPages.map Plugin.htmlWebpackPlugin ++
      [.subresourceIntegrityPlugin]
    moduleRules := [
      { test := "\\.css$"
        use := [.str MiniCssExtractPlugin.loader, .str "css-loader"] },
      { test := "\\.(woff2?|eot|ttf|otf)$"
        testIgnoreCase := true
        type := some "asset/resource"
        generatorFilename := some "fonts/[name].[contenthash][ext]" },
      { test := "\\.(png|svg|jpg|jpeg|gif|avif)$"
        type := some "asset/resource"
        generatorFilename := some "images/[name].[contenthash][ext]" },
      { test := "\\.html$"
        loader := some "html-loader"
        sourcesList := some [.defaults, .linkEntry "link" "href" "src"] },
      { test := "\\.ts$"
        use := [.obj "@altshiftab/minify_lit"] },
      { test := "\\.ts$"
        exclude := some "node_modules"
        use := [.tsLoaderObj "ts-loader"
          { module := "ESNext"
            moduleResolution := "Bundler"
            target := "ESNext"
            esModuleInterop := true
            strict := true
            outDir := "./dist"
            experimentalDecorators := true
            useDefineForClassFields := false }
          true] }] }

/-- The `makeConfig` function: discovery followed by assembly, with the same
explicit filesystem and working directory. -/
def makeConfig (fileSystem : List Path) (cwd : String)
    (extraPlugins : List Plugin) : Configuration :=
  makeConfigWithParameters cwd (generateParameters fileSystem cwd) extraPlugins

/-- A path segment a real filesystem can produce: nonempty, not a dot link,
and free of separators. -/
def validSegment (s : String) : Bool :=
  s != "" && s != "." && s != ".." && !(s.data.contains '/')

/-- A file path a real filesystem enumeration can produce. -/
def validPath (p : Path) : Bool := !p.isEmpty && p.all validSegment

/-- A filesystem whose paths are all well formed. -/
def validFs (fileSystem : List Path) : Bool := fileSystem.all validPath

/-- The chunk-name path the specification describes for claim C2: the
document's path relative to the source root with the document extension
removed from its final segment (spec-side definition, to be compared with
the `join (dirname ..) (basename ..)` computation of the source). -/
def stripLastExtension (p : Path) (ext : String) : Path :=
  p.dropLast ++ [stripSuffix (p.getLast?.getD "") ext]

/-! ## Helper lemmas -/

theorem recordSet_length_le (record : List (String × String)) (key value : String) :
    (recordSet record key value).length ≤ record.length + 1 := by
  unfold recordSet
  split
  · simp only [List.length_map]
    omega
  · simp only [List.length_append, List.length_cons, List.length_nil]
    omega

theorem entryFold_length_le (l : List Path) (init : List (String × String)) :
    (l.foldl (fun entry scriptFilePath =>
        recordSet entry (basename scriptFilePath scriptExtension)
          ("./" ++ pathToString scriptFilePath)) init).length
      ≤ init.length + l.length := by
  induction l generalizing init with
  | nil => simp
  | cons p l ih =>
    have h1 := ih (recordSet init (basename p scriptExtension) ("./" ++ pathToString p))
    have h2 := recordSet_length_le init (basename p scriptExtension) ("./" ++ pathToString p)
    simp only [List.foldl_cons, List.length_cons]
    omega

/-! ## Claim theorems -/

/-- C6: on a source tree containing no matching script files and no matching
document files, `generateParameters` returns normally (it is total here),
with an empty entry mapping, an empty page list, and the aliases table still
present. -/
theorem empty_tree_yields_empty_parameters (fileSystem : List Path)
    (cwd : String)
    (hs : ∀ p ∈ fileSystem, scriptGlobMatch p = false)
    (hd : ∀ p ∈ fileSystem, documentGlobMatch p = false) :
    (generateParameters fileSystem cwd).entry = [] ∧
    (generateParameters fileSystem cwd).htmlPages = [] ∧
    (generateParameters fileSystem cwd).aliases = [
      ("lit", "lit"),
      ("litDecorators", "lit/decorators.js"),
      ("altshiftBox",
        pathResolve cwd "node_modules/@altshiftab/web_components/dist/box.js"),
      ("altshiftSwitch",
        pathResolve cwd "node_modules/@altshiftab/web_components/dist/switch.js")] := by
  have hsf : fileSystem.filter scriptGlobMatch = [] := by
    rw [List.filter_eq_nil_iff]
    intro p hp
    simp [hs p hp]
  have hdf : fileSystem.filter documentGlobMatch = [] := by
    rw [List.filter_eq_nil_iff]
    intro p hp
    simp [hd p hp]
  refine ⟨?_, ?_, rfl⟩
  · simp [generateParameters, globSync, hsf]
  · simp [generateParameters, globSync, hdf]

/-- Witness for C6 at a concrete tree holding only non-matching files. -/
theorem empty_tree_yields_empty_parameters_witness :
    (generateParameters [["src", "style.css"], ["README.md"]] "/w").entry = [] ∧
    (generateParameters [["src", "style.css"], ["README.md"]] "/w").htmlPages
        = [] ∧
    (generateParameters [["src", "style.css"], ["README.md"]] "/w").aliases = [
      ("lit", "lit"),
      ("litDecorators", "lit/decorators.js"),
      ("altshiftBox",
        pathResolve "/w" "node_modules/@altshiftab/web_components/dist/box.js"),
      ("altshiftSwitch",
        pathResolve "/w" "node_modules/@altshiftab/web_components/dist/switch.js")] :=
  empty_tree_yields_empty_parameters [["src", "style.css"], ["README.md"]] "/w"
    (by decide) (by decide)

/-- C7: for every filesystem, the aliases table returned by
`generateParameters` is the fixed four-key mapping, with `lit` and
`litDecorators` bound to fixed module names and `altshiftBox` and
`altshiftSwitch` resolved against the working directory in force when the
function runs. -/
theorem aliases_table_fixed (fileSystem : List Path) (cwd : String) :
    (generateParameters fileSystem cwd).aliases = [
      ("lit", "lit"),
      ("litDecorators", "lit/decorators.js"),
      ("altshiftBox",
        pathResolve cwd "node_modules/@altshiftab/web_components/dist/box.js"),
      ("altshiftSwitch",
        pathResolve cwd "node_modules/@altshiftab/web_components/dist/switch.js")] :=
  rfl

/-- C8: discovery is deterministic in its filesystem input and working
directory: two runs of `generateParameters` over the same unchanged tree
yield equal `Parameters` values.  In the embedding the effects are explicit
arguments, so the function is pure and the two runs coincide. -/
theorem generateParameters_deterministic (fileSystem : List Path) (cwd : String) :
    generateParameters fileSystem cwd = generateParameters fileSystem cwd :=
  rfl

/-- C10: `makeConfigWithParameters` passes the caller's data through
unchanged: the configuration's `entry` is `parameters.entry` and its
`resolve.alias` is `parameters.aliases`, with no keys added, removed, or
rewritten. -/
theorem config_passes_entry_and_aliases_through (cwd : String)
    (parameters : Parameters) (extraPlugins : List Plugin) :
    (makeConfigWithParameters cwd parameters extraPlugins).entry
        = parameters.entry ∧
    (makeConfigWithParameters cwd parameters extraPlugins).resolve.aliasMap
        = parameters.aliases :=
  ⟨rfl, rfl⟩

/-- C1 counterexample: with empty parameters and a single extra plugin, the
final plugin list is not the generated list with the extra plugin appended
after it — the extra plugin does not occupy the trailing position. -/
theorem extraPlugins_trailing_false :
    ¬ ((makeConfigWithParameters "/w" ⟨[], [], []⟩ [Plugin.custom 0]).plugins
        = (makeConfigWithParameters "/w" ⟨[], [], []⟩ []).plugins
            ++ [Plugin.custom 0]) := by
  decide

/-- C1 amended: the caller-supplied plugin instances occupy the leading
positions of the final plugin list, in their given order, before the
generated plugins. -/
theorem extraPlugins_prepended (cwd : String) (parameters : Parameters)
    (extraPlugins : List Plugin) :
    (makeConfigWithParameters cwd parameters extraPlugins).plugins
      = extraPlugins ++ (makeConfigWithParameters cwd parameters []).plugins := by
  simp [makeConfigWithParameters]

/-- C3: for a source tree with N matching script files and M matching
document files, discovery produces an entry mapping of size at most N (a
later script whose basename collides with an earlier one overwrites its
entry) and exactly M page descriptors. -/
theorem discovery_counts (fileSystem : List Path) (cwd : String) :
    (generateParameters fileSystem cwd).entry.length
        ≤ (fileSystem.filter scriptGlobMatch).length ∧
    (generateParameters fileSystem cwd).htmlPages.length
        = (fileSystem.filter documentGlobMatch).length := by
  refine ⟨?_, ?_⟩
  · simpa [generateParameters, globSync] using
      entryFold_length_le (fileSystem.filter scriptGlobMatch) []
  · simp [generateParameters, globSync]

/-- C9: every page descriptor produced by `generateParameters` has a chunks
list of length exactly one. -/
theorem htmlPage_single_chunk (fileSystem : List Path) (cwd : String)
    (page : HtmlPage) (h : page ∈ (generateParameters fileSystem cwd).htmlPages) :
    page.chunks.length = 1 := by
  simp only [generateParameters, globSync, List.mem_map] at h
  obtain ⟨p, -, rfl⟩ := h
  rfl

/-- Witness for C9 at a concrete one-document tree. -/
theorem htmlPage_single_chunk_witness :
    (pageOf ["src", "index.html"]).chunks.length = 1 :=
  htmlPage_single_chunk [["src", "index.html"]] "/w"
    (pageOf ["src", "index.html"]) (by decide)

/-- C4: assembling a configuration from parameters with an empty entry
mapping and an empty page list (and no extra plugins) yields a configuration
whose entry mapping is empty, whose plugin list is exactly the five fixed
generated plugins with no `HtmlWebpackPlugin` among them, and whose module
rule list is the full fixed set of loader rules. -/
theorem config_of_empty_parameters (cwd : String)
    (aliases : List (String × String)) :
    (makeConfigWithParameters cwd ⟨[], [], aliases⟩ []).entry = [] ∧
    (makeConfigWithParameters cwd ⟨[], [], aliases⟩ []).plugins = [
      .providePlugin [
        ("lit", "lit"),
        ("litDecorators", "lit/decorators.js"),
        ("altshiftBox", "@altshiftab/web_components/box"),
        ("altshiftSwitch", "@altshiftab/web_components/switch")],
      .limitChunkCountPlugin 1,
      .removeEmptyScriptsPlugin,
      .miniCssExtractPlugin "styles/[name]-[contenthash].css",
      .subresourceIntegrityPlugin] ∧
    (makeConfigWithParameters cwd ⟨[], [], aliases⟩ []).plugins.any
        Plugin.isHtmlWebpackPlugin = false ∧
    (makeConfigWithParameters cwd ⟨[], [], aliases⟩ []).moduleRules = [
      { test := "\\.css$"
        use := [.str MiniCssExtractPlugin.loader, .str "css-loader"] },
      { test := "\\.(woff2?|eot|ttf|otf)$"
        testIgnoreCase := true
        type := some "asset/resource"
        generatorFilename := some "fonts/[name].[contenthash][ext]" },
      { test := "\\.(png|svg|jpg|jpeg|gif|avif)$"
        type := some "asset/resource"
        generatorFilename := some "images/[name].[contenthash][ext]" },
      { test := "\\.html$"
        loader := some "html-loader"
        sourcesList := some [.defaults, .linkEntry "link" "href" "src"] },
      { test := "\\.ts$"
        use := [.obj "@altshiftab/minify_lit"] },
      { test := "\\.ts$"
        exclude := some "node_modules"
        use := [.tsLoaderObj "ts-loader"
          { module := "ESNext"
            moduleResolution := "Bundler"
            target := "ESNext"
            esModuleInterop := true
            strict := true
            outDir := "./dist"
            experimentalDecorators := true
            useDefineForClassFields := false }
          true] }] := by
  refine ⟨rfl, ?_, ?_, rfl⟩
  · simp [makeConfigWithParameters]
  · simp [makeConfigWithParameters, Plugin.isHtmlWebpackPlugin]

/-- C5: classification is purely by extension and location.  A file
contributes to the entry mapping exactly when it lies directly inside
`src/scripts` with a name ending in the script extension; a file
contributes a page descriptor exactly when it lies anywhere below the
source root `src` with a name ending in the document extension; a file
matching neither pattern contributes nothing to the returned parameters. -/
theorem classification_by_extension_and_location (fileSystem : List Path)
    (cwd : String) (p : Path) :
    (scriptGlobMatch p = true ↔
      ∃ name, p = ["src", "scripts", name] ∧
        strEndsWith name scriptExtension = true) ∧
    (documentGlobMatch p = true ↔
      ∃ dirs name, p = "src" :: dirs ++ [name] ∧
        strEndsWith name documentExtension = true) ∧
    (scriptGlobMatch p = true →
      (generateParameters (fileSystem ++ [p]) cwd).entry
        = recordSet (generateParameters fileSystem cwd).entry
            (basename p scriptExtension) ("./" ++ pathToString p)) ∧
    (documentGlobMatch p = true →
      (generateParameters (fileSystem ++ [p]) cwd).htmlPages
        = (generateParameters fileSystem cwd).htmlPages ++ [pageOf p]) ∧
    (scriptGlobMatch p = false → documentGlobMatch p = false →
      generateParameters (fileSystem ++ [p]) cwd
        = generateParameters fileSystem cwd) := by
  refine ⟨?_, ?_, ?_, ?_, ?_⟩
  · constructor
    · intro h
      unfold scriptGlobMatch at h
      split at h
      · rename_i dir1 dir2 name
        simp only [Bool.and_eq_true, beq_iff_eq] at h
        obtain ⟨⟨rfl, rfl⟩, h⟩ := h
        exact ⟨name, rfl, h⟩
      · simp at h
    · rintro ⟨name, rfl, h⟩
      simp [scriptGlobMatch, h]
  · constructor
    · intro h
      unfold documentGlobMatch at h
      split at h
      · simp at h
      · rename_i dir1 rest
        simp only [Bool.and_eq_true, beq_iff_eq, Bool.not_eq_true'] at h
        obtain ⟨⟨rfl, hne⟩, hend⟩ := h
        rcases List.eq_nil_or_concat rest with hnil | ⟨dirs, name, hc⟩
        · subst hnil
          simp at hne
        · rw [List.concat_eq_append] at hc
          subst hc
          rw [List.getLast?_concat] at hend
          exact ⟨dirs, name, rfl, hend⟩
    · rintro ⟨dirs, name, rfl, h⟩
      simp [documentGlobMatch, List.getLast?_concat, h]
  · intro h
    simp [generateParameters, globSync, List.filter_append, List.filter_cons, h,
      List.foldl_append]
  · intro h
    simp [generateParameters, globSync, List.filter_append, List.filter_cons, h]
  · intro h1 h2
    simp [generateParameters, globSync, List.filter_append, List.filter_cons,
      h1, h2]

/-- Witness for C5: a matching script, a matching document, and an ignored
stylesheet, each added to the empty tree. -/
theorem classification_witness :
    ((generateParameters [["src", "scripts", "app.ts"]] "/w").entry
        = recordSet (generateParameters [] "/w").entry
            (basename ["src", "scripts", "app.ts"] scriptExtension)
            ("./" ++ pathToString ["src", "scripts", "app.ts"])) ∧
    ((generateParameters [["src", "index.html"]] "/w").htmlPages
        = (generateParameters [] "/w").htmlPages
            ++ [pageOf ["src", "index.html"]]) ∧
    (generateParameters [["src", "style.css"]] "/w"
        = generateParameters [] "/w") :=
  ⟨(classification_by_extension_and_location [] "/w"
      ["src", "scripts", "app.ts"]).2.2.1 (by decide),
   (classification_by_extension_and_location [] "/w"
      ["src", "index.html"]).2.2.2.1 (by decide),
   (classification_by_extension_and_location [] "/w"
      ["src", "style.css"]).2.2.2.2 (by decide) (by decide)⟩

/-- The chunk-name computation of the source, `join(dirname(rel),
basename(doc, ext))`, equals the relative path with the extension stripped
from its final segment, provided the directory part is not the literal
`["."]` (which a real filesystem never produces). -/
theorem join_dirname_strip (dirs : List String) (name ext : String)
    (hdot : dirs ≠ ["."]) :
    join (dirname (dirs ++ [name])) (stripSuffix name ext)
      = stripLastExtension (dirs ++ [name]) ext := by
  unfold stripLastExtension
  rw [List.dropLast_concat, List.getLast?_concat]
  cases dirs with
  | nil => simp [dirname, join]
  | cons d ds =>
    have hlen : ¬ ((d :: ds) ++ [name]).length ≤ 1 := by
      simp [List.length_append]
    rw [dirname, if_neg hlen, List.dropLast_concat, join, if_neg hdot]
    rfl

/-- The page descriptor built for a matched, well-formed document path, with
its chunk expressed through the relative path directly. -/
theorem pageOf_spec (p : Path) (hm : documentGlobMatch p = true)
    (hv : validPath p = true) :
    pageOf p = {
      template := pathToString p
      filename := pathToString (relative "src" p)
      chunks := [replaceSlashes (pathToString
        (stripLastExtension (relative "src" p) documentExtension))] } := by
  cases p with
  | nil => simp [documentGlobMatch] at hm
  | cons dir1 rest =>
    simp only [documentGlobMatch, Bool.and_eq_true, beq_iff_eq,
      Bool.not_eq_true'] at hm
    obtain ⟨⟨rfl, hne⟩, -⟩ := hm
    have hrne : rest ≠ [] := by
      intro hrest
      subst hrest
      simp at hne
    obtain ⟨dirs, name, rfl⟩ : ∃ dirs name, rest = dirs ++ [name] := by
      rcases List.eq_nil_or_concat rest with hnil | ⟨L, b, hc⟩
      · exact absurd hnil hrne
      · exact ⟨L, b, by simpa [List.concat_eq_append] using hc⟩
    have hdot : dirs ≠ ["."] := by
      intro hd
      subst hd
      have hseg : validSegment "src" = true ∧ validSegment "." = true ∧
          validSegment name = true := by simpa [validPath] using hv
      exact absurd hseg.2.1 (by decide)
    have hrel : relative "src" ("src" :: (dirs ++ [name])) = dirs ++ [name] := by
      simp [relative]
    have hbase : basename ("src" :: (dirs ++ [name])) documentExtension
        = stripSuffix name documentExtension := by
      unfold basename
      rw [← List.cons_append, List.getLast?_concat]
      rfl
    simp only [pageOf, hrel, hbase]
    rw [join_dirname_strip dirs name documentExtension hdot]

/-- C2 counterexample: for the single document `src/a/b.html` the relative
path with separators replaced by underscores is `a_b.html`, but the
generated chunk name is `a_b` — the document extension is also stripped. -/
theorem chunkName_with_extension_false :
    ¬ ((generateParameters [["src", "a", "b.html"]] "/w").htmlPages.map
          HtmlPage.chunks
        = [[replaceSlashes (pathToString
            (relative "src" ["src", "a", "b.html"]))]]) := by
  decide

/-- C2 amended: for a well-formed source tree, each page descriptor's single
chunk name is the document's path relative to the source root with the
document extension removed and path separators replaced by underscores. -/
theorem chunkName_of_relative_path (fileSystem : List Path) (cwd : String)
    (h : validFs fileSystem = true) :
    (generateParameters fileSystem cwd).htmlPages
      = (fileSystem.filter documentGlobMatch).map fun p =>
          { template := pathToString p
            filename := pathToString (relative "src" p)
            chunks := [replaceSlashes (pathToString
              (stripLastExtension (relative "src" p) documentExtension))] } := by
  show (fileSystem.filter documentGlobMatch).map pageOf = _
  apply List.map_congr_left
  intro p hp
  have hmem := (List.mem_filter.mp hp).1
  have hmatch := (List.mem_filter.mp hp).2
  have hvalid : validPath p = true := List.all_eq_true.mp h p hmem
  exact pageOf_spec p hmatch hvalid

/-- Witness for the amended C2 at a concrete one-document tree. -/
theorem chunkName_of_relative_path_witness :
    (generateParameters [["src", "pages", "about.html"]] "/w").htmlPages
      = [{ template := "src/pages/about.html"
           filename := "pages/about.html"
           chunks := ["pages_about"] }] :=
  (chunkName_of_relative_path [["src", "pages", "about.html"]] "/w"
    (by decide)).trans (by decide)

end WebpackConfig
